import Mathlib

/-!
Shallow embedding of the vtx-sync run-orchestration engine: the circuit
breaker and scheduler tick (`src/scheduler.ts`), the sync orchestrator
(`src/services/sync.ts`), the retry-once wrapper (`services/retry.ts`),
the exporter pipeline (`src/services/exporter.ts`), and the download
capture protocol (`src/utils/download.ts` and
`services/pacificTrack.ts`).  Collaborator calls (browser operations,
HTTP upload, authentication) are modelled as explicit environments whose
results live in `Except SyncError`, so a thrown exception of the source
is an `Except.error`; wall-clock time is an explicit `Nat` parameter in
milliseconds.
-/

namespace VtxSync

/-- Decidable equality for `Except`, used to evaluate the model on
concrete inputs. -/
instance {ε α : Type} [DecidableEq ε] [DecidableEq α] : DecidableEq (Except ε α) := fun x y =>
  match x, y with
  | Except.ok u, Except.ok v =>
    if h : u = v then isTrue (by rw [h]) else isFalse (by intro hh; cases hh; exact h rfl)
  | Except.error u, Except.error v =>
    if h : u = v then isTrue (by rw [h]) else isFalse (by intro hh; cases hh; exact h rfl)
  | Except.ok _, Except.error _ => isFalse (by intro hh; cases hh)
  | Except.error _, Except.ok _ => isFalse (by intro hh; cases hh)

/-- Closed set of error categories (source: `types.ts`, field
`errorCategory`).  The constructor `exportC` models the source string
value "export" (`export` is a Lean keyword). -/
inductive ErrCategory where
  | login
  | navigation
  | exportC
  | upload
  | auth
deriving DecidableEq, Repr

/-- Phases recorded on a `SyncResult` (source: `types.ts`, field
`phase`).  The constructor `exportP` models the source string value
"export". -/
inductive Phase where
  | login
  | exportP
  | upload
  | complete
deriving DecidableEq, Repr

/-- A thrown error as observed by `runSync`'s catch block: its message
and the optional `category` property attached by the collaborators
(`PacificTrackError` in `pacificTrack.ts`, categorized errors in
`api.ts`); a plain `Error` carries no category. -/
structure SyncError where
  message : String
  category : Option ErrCategory
deriving DecidableEq, Repr

/-- Captured export artifact (source: `types.ts`, `ExportResult`).  The
byte buffer is a list of byte values. -/
structure ExportResult where
  buffer : List Nat
  filename : String
  size : Nat
deriving DecidableEq, Repr

/-- Result of the upload collaborator (source: `types.ts`,
`UploadResult`).  Absent optional fields are `none` / `false`. -/
structure UploadResult where
  success : Bool
  importId : Option String := none
  newRecords : Option Nat := none
  duplicates : Option Nat := none
  totalRows : Option Nat := none
  skipped : Bool := false
  reason : Option String := none
deriving DecidableEq, Repr

/-- Result of one sync attempt (source: `types.ts`, `SyncResult`).
Start/end wall times and `duration` are not modelled; the JS-undefined
state of the optional fields is `none` / `false`. -/
structure SyncResult where
  success : Bool
  runId : String
  phase : Phase
  error : Option String := none
  errorCategory : Option ErrCategory := none
  filename : Option String := none
  fileSize : Option Nat := none
  newRecords : Option Nat := none
  duplicates : Option Nat := none
  totalRows : Option Nat := none
  wasRetry : Bool := false
  isRetryExhausted : Bool := false
  originalError : Option String := none
deriving DecidableEq, Repr

/-! ## Circuit breaker (`src/scheduler.ts`, circuitBreaker module) -/

/-- In-memory circuit breaker state: `consecutiveFailures` counter and
the optional open timestamp (milliseconds). -/
structure CBState where
  consecutiveFailures : Nat
  circuitOpenedAt : Option Nat
deriving DecidableEq, Repr

/-- Initial circuit state at process start. -/
def CBState.init : CBState := ⟨0, none⟩

/-- Consecutive failures before opening the circuit. -/
def CIRCUIT_BREAKER_THRESHOLD : Nat := 5

/-- Auto-reset window: `CIRCUIT_BREAKER_RESET_HOURS = 1` converted to
milliseconds as in `isCircuitOpen`. -/
def resetTimeoutMs : Nat := 1 * 60 * 60 * 1000

/-- Source `recordFailure()`: increment the counter; open the circuit at
the current time once the threshold is reached and it is not already
open. -/
def recordFailure (now : Nat) (s : CBState) : CBState :=
  let c := s.consecutiveFailures + 1
  if CIRCUIT_BREAKER_THRESHOLD ≤ c ∧ s.circuitOpenedAt = none then
    ⟨c, some now⟩
  else
    ⟨c, s.circuitOpenedAt⟩

/-- Source `recordSuccess()`: unconditionally reset counter and open
marker. -/
def recordSuccess (_s : CBState) : CBState := ⟨0, none⟩

/-- Source `isCircuitOpen()`: returns the boolean answer together with
the possibly auto-reset state (the source mutates module-level state in
place).  JS computes `now - openedAt` on signed numbers; with `Nat`
truncated subtraction a clock that moved backwards also fails the
`>= resetTimeoutMs` test, matching the source. -/
def isCircuitOpen (now : Nat) (s : CBState) : Bool × CBState :=
  if s.consecutiveFailures < CIRCUIT_BREAKER_THRESHOLD then
    (false, s)
  else
    match s.circuitOpenedAt with
    | none => (false, s)
    | some openedAt =>
      if resetTimeoutMs ≤ now - openedAt then
        (false, ⟨0, none⟩)
      else
        (true, s)

/-- Variant of `isCircuitOpen` without the counter-below-threshold early
return, used to state that that early return is redundant on reachable
states. -/
def isCircuitOpenNoGuard (now : Nat) (s : CBState) : Bool × CBState :=
  match s.circuitOpenedAt with
  | none => (false, s)
  | some openedAt =>
    if resetTimeoutMs ≤ now - openedAt then
      (false, ⟨0, none⟩)
    else
      (true, s)

/-- One externally triggerable circuit-breaker operation, with the wall
time at which it runs. -/
inductive CBOp where
  | fail (now : Nat)
  | succ
  | check (now : Nat)
deriving DecidableEq, Repr

/-- State effect of one circuit-breaker operation (`check` keeps the
state returned by `isCircuitOpen`, including its auto-reset). -/
def applyCBOp (s : CBState) (op : CBOp) : CBState :=
  match op with
  | CBOp.fail now => recordFailure now s
  | CBOp.succ => recordSuccess s
  | CBOp.check now => (isCircuitOpen now s).2

/-- Circuit state reached from the initial state by a sequence of
operations. -/
def cbReach (ops : List CBOp) : CBState :=
  ops.foldl applyCBOp CBState.init

/-- Invariant: whenever the open timestamp is set, the counter is at
least the threshold. -/
def CBInv (s : CBState) : Prop :=
  s.circuitOpenedAt ≠ none → CIRCUIT_BREAKER_THRESHOLD ≤ s.consecutiveFailures

instance (s : CBState) : Decidable (CBInv s) := by
  unfold CBInv
  infer_instance

/-! ## Sync orchestrator (`src/services/sync.ts`) -/

/-- Collaborators of `runSync`: the Pacific Track export
(`exporter.ts`), the Supabase authentication and the VTX upload
(`api.ts`).  Each takes the run id (and the upload additionally the
buffer, filename and token, in source order) and either returns or
throws. -/
structure SyncEnv where
  exportStep : String → Except SyncError ExportResult
  authStep : String → Except SyncError String
  uploadStep : List Nat → String → String → String → Except SyncError UploadResult

/-- The try-block of `runSync`: export, then authenticate, then upload;
any thrown error propagates to the catch. -/
def runSyncBody (env : SyncEnv) (runId : String) :
    Except SyncError (ExportResult × UploadResult) := do
  let exportResult ← env.exportStep runId
  let token ← env.authStep runId
  let uploadResult ← env.uploadStep exportResult.buffer exportResult.filename token runId
  pure (exportResult, uploadResult)

/-- Phase recorded on a failed run, from the caught error's category
(`sync.ts` lines 99-105): the `phase` variable is initialised to
`'complete'` and overwritten only for the five known categories. -/
def categoryPhase : Option ErrCategory → Phase
  | some ErrCategory.login => Phase.exportP
  | some ErrCategory.navigation => Phase.exportP
  | some ErrCategory.exportC => Phase.exportP
  | some ErrCategory.auth => Phase.upload
  | some ErrCategory.upload => Phase.upload
  | none => Phase.complete

/-- Success result built at the end of `runSync`'s try block. -/
def successResult (runId : String) (er : ExportResult) (up : UploadResult) : SyncResult :=
  { success := true
    runId := runId
    phase := Phase.complete
    filename := some er.filename
    fileSize := some er.size
    newRecords := up.newRecords
    duplicates := up.duplicates
    totalRows := up.totalRows }

/-- Failure result built in `runSync`'s catch block: message and
category read off the caught error, phase derived from the category. -/
def failureResult (runId : String) (e : SyncError) : SyncResult :=
  { success := false
    runId := runId
    phase := categoryPhase e.category
    error := some e.message
    errorCategory := e.category }

/-- Source `runSync`: the try block followed by the catch that converts
any thrown error into a terminal failure result. -/
def runSync (env : SyncEnv) (runId : String) : SyncResult :=
  match runSyncBody env runId with
  | Except.ok (er, up) => successResult runId er up
  | Except.error e => failureResult runId e

/-- `runSync` with the exception flow kept explicit: the try block runs
in `Except` and the catch handler is installed with `tryCatch`, so an
escaping exception would surface as `Except.error`. -/
def runSyncE (env : SyncEnv) (runId : String) : Except SyncError SyncResult :=
  Except.tryCatch
    (do
      let (er, up) ← runSyncBody env runId
      pure (successResult runId er up))
    (fun e => pure (failureResult runId e))

/-! ## Retry orchestrator (`src/services/retry.ts`) -/

/-- Modelled from the spec: `config.ts` is not under `src/`; the spec
and README fix the retry delay default at 5 minutes
(`RETRY_DELAY_MS = 300000`). -/
def RETRY_DELAY_MS : Nat := 300000

/-- Source `runSyncWithRetry`: run once; on failure sleep the fixed
delay, derive the retry id by appending "-retry", run once more, and
mark the returned result. -/
def runSyncWithRetry (env : SyncEnv) (runId : String) : SyncResult :=
  let firstResult := runSync env runId
  if firstResult.success then
    firstResult
  else
    let retryRunId := runId ++ "-retry"
    let retryResult := runSync env retryRunId
    if retryResult.success then
      { retryResult with wasRetry := true, originalError := firstResult.error }
    else
      { retryResult with
          wasRetry := true
          isRetryExhausted := true
          originalError := firstResult.error }

/-- Instrumented `runSyncWithRetry`: additionally returns, in order,
each attempted run id paired with the delay slept immediately before
that attempt (the control flow is identical to `runSyncWithRetry`). -/
def runSyncWithRetryTrace (env : SyncEnv) (runId : String) :
    SyncResult × List (Nat × String) :=
  let firstResult := runSync env runId
  if firstResult.success then
    (firstResult, [(0, runId)])
  else
    let retryRunId := runId ++ "-retry"
    let retryResult := runSync env retryRunId
    if retryResult.success then
      ({ retryResult with wasRetry := true, originalError := firstResult.error },
        [(0, runId), (RETRY_DELAY_MS, retryRunId)])
    else
      ({ retryResult with
          wasRetry := true
          isRetryExhausted := true
          originalError := firstResult.error },
        [(0, runId), (RETRY_DELAY_MS, retryRunId)])

/-- `runSyncWithRetry` with the exception flow kept explicit: it calls
the catching `runSyncE` and installs no handler of its own. -/
def runSyncWithRetryE (env : SyncEnv) (runId : String) : Except SyncError SyncResult := do
  let firstResult ← runSyncE env runId
  if firstResult.success then
    pure firstResult
  else
    let retryRunId := runId ++ "-retry"
    let retryResult ← runSyncE env retryRunId
    if retryResult.success then
      pure { retryResult with wasRetry := true, originalError := firstResult.error }
    else
      pure { retryResult with
              wasRetry := true
              isRetryExhausted := true
              originalError := firstResult.error }

/-! ## Scheduler tick (`src/scheduler.ts`, the cron callback) -/

/-- Scheduler-owned mutable state: the in-flight guard `isRunning` and
the circuit breaker singleton. -/
structure SchedulerState where
  isRunning : Bool
  cb : CBState
deriving DecidableEq, Repr

/-- What a trigger tick did before any attempt work. -/
inductive TickAction where
  | skippedBusy
  | skippedCircuitOpen
  | started
deriving DecidableEq, Repr

/-- Head of the cron callback: skip if a run is in flight (the circuit
breaker is not even consulted), skip if the circuit reports open
(keeping any auto-reset it performed), otherwise set the guard and
start an attempt. -/
def tickBegin (now : Nat) (st : SchedulerState) : SchedulerState × TickAction :=
  if st.isRunning then
    (st, TickAction.skippedBusy)
  else
    let (isOpenNow, cb') := isCircuitOpen now st.cb
    if isOpenNow then
      ({ st with cb := cb' }, TickAction.skippedCircuitOpen)
    else
      ({ st with isRunning := true, cb := cb' }, TickAction.started)

/-- Tail of the cron callback for a started attempt, given the
orchestrator's outcome (`Except.error` models the defensive case of an
exception escaping `runSyncWithRetry`, handled by the tick's own
catch).  Returns the new state and whether the failure alert fires
(`sendFailureAlert` is reached exactly when the result failed with
`isRetryExhausted`).  The `finally` clears the guard on every path. -/
def tickFinish (now : Nat) (st : SchedulerState)
    (result : Except SyncError SyncResult) : SchedulerState × Bool :=
  match result with
  | Except.error _ => ({ st with isRunning := false }, false)
  | Except.ok r =>
    if r.success then
      ({ st with isRunning := false, cb := recordSuccess st.cb }, false)
    else
      ({ st with isRunning := false, cb := recordFailure now st.cb }, r.isRetryExhausted)

/-- One whole trigger tick, run to completion: begin, and if an attempt
started, finish it with the orchestrator's outcome.  Returns the new
state, the action taken, and whether the failure alert fired. -/
def schedulerTick (now : Nat) (st : SchedulerState)
    (orchestratorOutcome : Except SyncError SyncResult) :
    SchedulerState × TickAction × Bool :=
  match tickBegin now st with
  | (st', TickAction.started) =>
    let (st'', alert) := tickFinish now st' orchestratorOutcome
    (st'', TickAction.started, alert)
  | (st', act) => (st', act, false)

/-- Interleaving-level event: a cron trigger firing, or a started
attempt finishing with the orchestrator's outcome. -/
inductive SchedEvent where
  | trigger (now : Nat)
  | finish (now : Nat) (result : Except SyncError SyncResult)

/-- Step of the event semantics over the scheduler state paired with
the number of begun-but-unfinished attempts.  A `finish` with nothing
in flight has no counterpart in the program and is a no-op. -/
def stepEvent : SchedulerState × Nat → SchedEvent → SchedulerState × Nat
  | (st, k), SchedEvent.trigger now =>
    match tickBegin now st with
    | (st', TickAction.started) => (st', k + 1)
    | (st', _) => (st', k)
  | (st, k), SchedEvent.finish now r =>
    match k with
    | 0 => (st, 0)
    | k' + 1 => ((tickFinish now st r).1, k')

/-- Scheduler state and in-flight count after a sequence of events from
process start (guard down, circuit at its initial state). -/
def runEvents (evs : List SchedEvent) : SchedulerState × Nat :=
  evs.foldl stepEvent (⟨false, CBState.init⟩, 0)

/-! ## Download capture (`src/utils/download.ts`, `waitForDownload` in
`services/pacificTrack.ts`) -/

/-- JS `String.prototype.endsWith` on the character sequence (all names
involved are ASCII). -/
def strEndsWith (s suffix : String) : Bool :=
  suffix.data.isSuffixOf s.data

/-- JS `String.prototype.startsWith` on the character sequence. -/
def strStartsWith (s p : String) : Bool :=
  p.data.isPrefixOf s.data

/-- Candidate filter of `waitForFile`: an `.xlsx` name that is not a
partial-download marker and not hidden. -/
def isXlsxCandidate (f : String) : Bool :=
  strEndsWith f ".xlsx" &&
  !(strEndsWith f ".crdownload") &&
  !(strEndsWith f ".tmp") &&
  !(strStartsWith f ".")

/-- Filesystem as observed by the polling loop: the directory listing
and each name's reported size at a given wall time (milliseconds).  A
not-yet-existing directory is an empty listing, matching the source's
swallowed `readdirSync` error. -/
structure FsModel where
  files : Nat → List String
  size : Nat → String → Nat

/-- Timeout error message thrown at the end of `waitForFile`. -/
def timeoutMessage (directory : String) (timeout : Nat) : String :=
  "Timeout waiting for XLSX file in " ++ directory ++ " after " ++ toString timeout ++ "ms"

/-- Polling loop of `waitForFile`.  Each iteration: check the elapsed
time, list the directory, take the first candidate; a positive size is
re-read after the 200ms settle delay and the file is accepted (with the
time of the second reading) only if the two readings agree; otherwise
sleep the 500ms poll interval and loop.  `fuel` only bounds the
recursion: every iteration advances `now` by at least 500, so with
`timeout + 1` units the guard always fails first, and exhaustion
returns the same timeout error the guard does. -/
def waitForFileLoop (fs : FsModel) (directory : String) (timeout startTime : Nat) :
    Nat → Nat → Except String (String × Nat)
  | _, 0 => Except.error (timeoutMessage directory timeout)
  | now, fuel + 1 =>
    if now - startTime < timeout then
      match (fs.files now).filter isXlsxCandidate with
      | [] => waitForFileLoop fs directory timeout startTime (now + 500) fuel
      | f :: _ =>
        let s1 := fs.size now f
        if 0 < s1 then
          let s2 := fs.size (now + 200) f
          if s2 = s1 then
            Except.ok (f, now + 200)
          else
            waitForFileLoop fs directory timeout startTime (now + 700) fuel
        else
          waitForFileLoop fs directory timeout startTime (now + 500) fuel
    else
      Except.error (timeoutMessage directory timeout)

/-- Source `waitForFile`: run the polling loop from `startTime`. -/
def waitForFile (fs : FsModel) (directory : String) (timeout startTime : Nat) :
    Except String (String × Nat) :=
  waitForFileLoop fs directory timeout startTime startTime (timeout + 1)

/-- Signature-validation failure message of `waitForDownload`. -/
def xlsxSignatureError : String := "Downloaded file is not a valid XLSX (ZIP) format"

/-- Source `waitForDownload` (`pacificTrack.ts`): wait for a stable
file, read it (`content` gives the bytes of a name at read time), check
the leading two bytes against the ZIP signature `0x50 0x4B`, and either
return the artifact or throw a categorized `export` failure.  A
non-`PacificTrackError` (the timeout `Error` of `waitForFile`) is
wrapped as `Download failed: ...` with category `export`. -/
def waitForDownload (fs : FsModel) (content : String → List Nat)
    (directory : String) (timeout startTime : Nat) : Except SyncError ExportResult :=
  match waitForFile fs directory timeout startTime with
  | Except.error msg =>
    Except.error ⟨"Download failed: " ++ msg, some ErrCategory.exportC⟩
  | Except.ok (f, _acceptTime) =>
    let buffer := content f
    let size := buffer.length
    if buffer[0]? ≠ some 0x50 ∨ buffer[1]? ≠ some 0x4B then
      Except.error ⟨xlsxSignatureError, some ErrCategory.exportC⟩
    else
      Except.ok ⟨buffer, f, size⟩

/-! ## Exporter pipeline (`src/services/exporter.ts`) -/

/-- Collaborator operations of `exportFromPacificTrack`, in call order.
The four Pacific Track phase functions (`login`, `navigateToVehicles`,
`triggerExport`, `waitForDownload`) throw only categorized
`PacificTrackError`s in the source; the browser operations and the
debug screenshots in `exporter.ts` are unwrapped and can throw plain
(uncategorized) errors.  `closeBrowser` and
`cleanupDownloadDirectory` swallow their own errors in the source, so
the `finally` block never alters the outcome and carries no effect
here. -/
structure ExporterEnv where
  launchBrowser : Except SyncError Unit
  createPage : Except SyncError Unit
  setupDownloadBehavior : Except SyncError Unit
  loginStep : Except SyncError Unit
  screenshotDashboard : Except SyncError Unit
  navigateStep : Except SyncError Unit
  screenshotVehicles : Except SyncError Unit
  triggerStep : Except SyncError Unit
  screenshotTriggered : Except SyncError Unit
  downloadStep : Except SyncError ExportResult

/-- Source `exportFromPacificTrack`: the linear pipeline; the first
thrown error propagates to `runSync`. -/
def exportFromPacificTrack (env : ExporterEnv) : Except SyncError ExportResult := do
  env.launchBrowser
  env.createPage
  env.setupDownloadBehavior
  env.loginStep
  env.screenshotDashboard
  env.navigateStep
  env.screenshotVehicles
  env.triggerStep
  env.screenshotTriggered
  env.downloadStep

/-! ## Next-run-time calendar (`getNextRunTime` in `src/scheduler.ts`) -/

/-- Pacific wall-clock time, as the field-level arithmetic of
`getNextRunTime` sees it: a day counter plus hour, minute, and
sub-minute milliseconds. -/
structure WallTime where
  day : Nat
  hour : Nat
  minute : Nat
  msec : Nat
deriving DecidableEq, Repr

/-- Field validity of a wall time. -/
def WallTime.valid (t : WallTime) : Prop :=
  t.hour < 24 ∧ t.minute < 60 ∧ t.msec < 60000

/-- Milliseconds since the (arbitrary) day-0 epoch, for comparing wall
times. -/
def WallTime.toMs (t : WallTime) : Nat :=
  ((t.day * 24 + t.hour) * 60 + t.minute) * 60000 + t.msec

/-- Source `getNextRunTime`: on or after hour 22, or when stepping past
21:30, jump to 05:00 next day; before hour 5 jump to 05:00 today;
otherwise the next half-hour mark. -/
def getNextRunTime (t : WallTime) : WallTime :=
  if 22 ≤ t.hour then
    ⟨t.day + 1, 5, 0, 0⟩
  else if t.hour < 5 then
    ⟨t.day, 5, 0, 0⟩
  else if t.minute < 30 then
    ⟨t.day, t.hour, 30, 0⟩
  else if 22 ≤ t.hour + 1 then
    ⟨t.day + 1, 5, 0, 0⟩
  else
    ⟨t.day, t.hour + 1, 0, 0⟩

/-- Fire times of the actual trigger calendar, the cron expression
`'0,30 5-22 * * *'` used by `startScheduler`: minute 0 or 30 of every
hour from 5 through 22 inclusive. -/
def isCronFireTime (t : WallTime) : Prop :=
  5 ≤ t.hour ∧ t.hour ≤ 22 ∧ (t.minute = 0 ∨ t.minute = 30) ∧ t.msec = 0

instance (t : WallTime) : Decidable (isCronFireTime t) := by
  unfold isCronFireTime
  infer_instance

/-! ## Concrete environments used as witnesses -/

/-- An upload statistics record for successful witness runs. -/
def uploadOkStats : UploadResult :=
  { success := true
    importId := some "imp-1"
    newRecords := some 3
    duplicates := some 2
    totalRows := some 5 }

/-- A well-formed artifact for witness runs. -/
def artifactOk : ExportResult :=
  ⟨[0x50, 0x4B, 3, 4], "carb-vehicles.xlsx", 4⟩

/-- Environment whose upload fails (category `upload`) for run id "r1"
and succeeds for every other id: the primary attempt fails and the
retry succeeds. -/
def envRetrySucceeds : SyncEnv :=
  { exportStep := fun _ => Except.ok artifactOk
    authStep := fun _ => Except.ok "token"
    uploadStep := fun _ _ _ id =>
      if id = "r1" then
        Except.error ⟨"VTX Uploads API request failed (500): boom", some ErrCategory.upload⟩
      else
        Except.ok uploadOkStats }

/-- Environment whose export fails with category `login` on every
attempt. -/
def envLoginFails : SyncEnv :=
  { exportStep := fun _ =>
      Except.error ⟨"Could not find email input field", some ErrCategory.login⟩
    authStep := fun _ => Except.ok "token"
    uploadStep := fun _ _ _ _ => Except.ok uploadOkStats }

/-- Exporter collaborators where everything works except the dashboard
debug screenshot in `exporter.ts`, which throws a plain error with no
category attached. -/
def exporterEnvScreenshotFails : ExporterEnv :=
  { launchBrowser := Except.ok ()
    createPage := Except.ok ()
    setupDownloadBehavior := Except.ok ()
    loginStep := Except.ok ()
    screenshotDashboard := Except.error ⟨"ENOSPC: no space left on device, write", none⟩
    navigateStep := Except.ok ()
    screenshotVehicles := Except.ok ()
    triggerStep := Except.ok ()
    screenshotTriggered := Except.ok ()
    downloadStep := Except.ok artifactOk }

/-- Sync environment whose export step is the exporter pipeline above;
auth and upload behave normally. -/
def envUncategorized : SyncEnv :=
  { exportStep := fun _ => exportFromPacificTrack exporterEnvScreenshotFails
    authStep := fun _ => Except.ok "token"
    uploadStep := fun _ _ _ _ => Except.ok uploadOkStats }

/-- Download directory that only ever contains a partial-download
marker. -/
def fsPartialOnly : FsModel :=
  { files := fun _ => ["vehicles.xlsx.partial"]
    size := fun _ _ => 0 }

/-- Download directory with one stable, valid file from time 0 on. -/
def fsStable : FsModel :=
  { files := fun _ => ["carb-vehicles.xlsx"]
    size := fun _ _ => 4 }

/-- File contents bearing the ZIP/XLSX signature. -/
def contentPK : String → List Nat := fun _ => [0x50, 0x4B, 3, 4]

/-- File contents with a wrong leading signature. -/
def contentBad : String → List Nat := fun _ => [1, 2, 3]

/-- Empty file contents (never read on the timeout path). -/
def contentEmpty : String → List Nat := fun _ => []

/-! ## Circuit breaker theorems -/

theorem cbInv_applyCBOp (s : CBState) (op : CBOp) (h : CBInv s) : CBInv (applyCBOp s op) := by
  cases op with
  | fail now =>
    simp only [applyCBOp, recordFailure]
    split
    · rename_i hcond
      intro _
      exact hcond.1
    · intro hopen
      exact Nat.le_succ_of_le (h hopen)
  | succ =>
    intro hopen
    exact absurd rfl hopen
  | check now =>
    simp only [applyCBOp, isCircuitOpen]
    split
    · exact h
    · split
      · exact h
      · split
        · intro _
          simp at *
        · exact h

theorem cbInv_foldl (ops : List CBOp) : ∀ s : CBState, CBInv s → CBInv (ops.foldl applyCBOp s) := by
  induction ops with
  | nil => intro s h; exact h
  | cons op rest ih => intro s h; exact ih _ (cbInv_applyCBOp s op h)

/-- C2: starting from the initial circuit state, five consecutive
`recordFailure` calls leave the counter at 5 with the open timestamp
set to the fifth failure's time; `isOpen` queried inside the reset
window answers true; any `recordSuccess` resets to the initial state
and makes `isOpen` false; an `isOpen` query at or after the 1-hour
reset window auto-resets both fields and answers false. -/
theorem circuit_breaker_contract (t1 t2 t3 t4 t5 now later : Nat)
    (hnow : now < t5 + resetTimeoutMs) (hlater : t5 + resetTimeoutMs ≤ later) :
    cbReach [CBOp.fail t1, CBOp.fail t2, CBOp.fail t3, CBOp.fail t4, CBOp.fail t5] =
      ⟨5, some t5⟩ ∧
    (isCircuitOpen now ⟨5, some t5⟩).1 = true ∧
    (∀ s : CBState, recordSuccess s = CBState.init ∧
      ∀ m : Nat, (isCircuitOpen m (recordSuccess s)).1 = false) ∧
    isCircuitOpen later ⟨5, some t5⟩ = (false, CBState.init) := by
  have hrt : resetTimeoutMs = 3600000 := rfl
  refine ⟨rfl, ?_, fun s => ⟨rfl, fun m => rfl⟩, ?_⟩
  · have hlt : ¬ resetTimeoutMs ≤ now - t5 := by omega
    simp [isCircuitOpen, CIRCUIT_BREAKER_THRESHOLD, hlt]
  · have hge : resetTimeoutMs ≤ later - t5 := by omega
    simp [isCircuitOpen, CIRCUIT_BREAKER_THRESHOLD, hge, CBState.init]

theorem circuit_breaker_contract_witness :
    (5 : Nat) < 5 + resetTimeoutMs ∧ (5 : Nat) + resetTimeoutMs ≤ 3600005 ∧
    (cbReach [CBOp.fail 1, CBOp.fail 2, CBOp.fail 3, CBOp.fail 4, CBOp.fail 5] =
        ⟨5, some 5⟩ ∧
      (isCircuitOpen 5 ⟨5, some 5⟩).1 = true ∧
      (∀ s : CBState, recordSuccess s = CBState.init ∧
        ∀ m : Nat, (isCircuitOpen m (recordSuccess s)).1 = false) ∧
      isCircuitOpen 3600005 ⟨5, some 5⟩ = (false, CBState.init)) :=
  ⟨by decide, by decide,
    circuit_breaker_contract 1 2 3 4 5 5 3600005 (by decide) (by decide)⟩

/-- C10: in every circuit state reachable from the initial state by any
sequence of `recordFailure`, `recordSuccess` and `isCircuitOpen` calls,
a set open timestamp implies the counter is at least the threshold 5;
consequently, on any state satisfying that invariant, `isCircuitOpen`
behaves identically with the counter-below-threshold early return
removed. -/
theorem circuit_open_invariant :
    (∀ ops : List CBOp, CBInv (cbReach ops)) ∧
    (∀ (now : Nat) (s : CBState), CBInv s →
      isCircuitOpen now s = isCircuitOpenNoGuard now s) := by
  constructor
  · intro ops
    exact cbInv_foldl ops CBState.init (by intro h; exact absurd rfl h)
  · intro now s hInv
    rcases hopen : s.circuitOpenedAt with _ | t
    · simp only [isCircuitOpen, isCircuitOpenNoGuard, hopen]
      split <;> rfl
    · have hge : ¬ s.consecutiveFailures < CIRCUIT_BREAKER_THRESHOLD := by
        have := hInv (by rw [hopen]; simp)
        omega
      simp only [isCircuitOpen, isCircuitOpenNoGuard, hopen, if_neg hge]

theorem circuit_open_invariant_witness :
    CBInv (cbReach [CBOp.fail 10, CBOp.fail 11, CBOp.fail 12, CBOp.fail 13, CBOp.fail 14,
      CBOp.check 20, CBOp.fail 21]) ∧
    CBInv ⟨7, some 3⟩ ∧
    isCircuitOpen 10 ⟨7, some 3⟩ = isCircuitOpenNoGuard 10 ⟨7, some 3⟩ :=
  ⟨circuit_open_invariant.1 _,
    by decide,
    circuit_open_invariant.2 10 ⟨7, some 3⟩ (by decide)⟩

/-! ## Orchestrator theorems -/

theorem runSyncE_ok (env : SyncEnv) (runId : String) :
    runSyncE env runId = Except.ok (runSync env runId) := by
  unfold runSyncE runSync
  rcases h : runSyncBody env runId with e | p
  · simp [Except.tryCatch, h, Except.bind, bind, pure, Except.pure]
  · obtain ⟨er, up⟩ := p
    simp [Except.tryCatch, h, Except.bind, bind, pure, Except.pure]

theorem runSync_no_retry_fields (env : SyncEnv) (runId : String) :
    (runSync env runId).isRetryExhausted = false ∧ (runSync env runId).wasRetry = false := by
  unfold runSync
  rcases runSyncBody env runId with e | ⟨er, up⟩ <;> exact ⟨rfl, rfl⟩

theorem schedulerTick_no_alert_of_success (now : Nat) (st : SchedulerState) (r : SyncResult)
    (h : r.success = true) :
    (schedulerTick now st (Except.ok r)).2.2 = false := by
  unfold schedulerTick tickBegin tickFinish
  by_cases hr : st.isRunning
  · simp [hr]
  · rcases hcb : isCircuitOpen now st.cb with ⟨isOpenNow, cb'⟩
    cases isOpenNow <;> simp [hr, hcb, h]

/-- C3: for every behaviour of the export, authentication and upload
collaborators — including thrown exceptions of any category —
`runSync` and `runSyncWithRetry`, run with their exception flow kept
explicit, return `Except.ok` of a terminal `SyncResult`: no exception
ever propagates to the caller. -/
theorem orchestrator_never_throws (env : SyncEnv) (runId : String) :
    runSyncE env runId = Except.ok (runSync env runId) ∧
    runSyncWithRetryE env runId = Except.ok (runSyncWithRetry env runId) := by
  refine ⟨runSyncE_ok env runId, ?_⟩
  unfold runSyncWithRetryE runSyncWithRetry
  simp only [runSyncE_ok]
  by_cases h1 : (runSync env runId).success
  · simp [Except.bind, bind, pure, Except.pure, h1]
  · by_cases h2 : (runSync env (runId ++ "-retry")).success <;>
      simp [Except.bind, bind, pure, Except.pure, h1, h2]

/-- C1: when the primary run fails, the retry orchestrator makes
exactly one secondary attempt, after the fixed delay, under the id
`runId ++ "-retry"`; the returned result has `wasRetry = true` and
`originalError` equal to the primary's error; `isRetryExhausted` is
true iff the secondary also failed; and when the secondary succeeds the
scheduler tick consuming the result fires no failure alert. -/
theorem retry_once_contract (env : SyncEnv) (runId : String)
    (hfail : (runSync env runId).success = false) :
    runSyncWithRetryTrace env runId =
      (runSyncWithRetry env runId, [(0, runId), (RETRY_DELAY_MS, runId ++ "-retry")]) ∧
    (runSyncWithRetry env runId).wasRetry = true ∧
    (runSyncWithRetry env runId).originalError = (runSync env runId).error ∧
    ((runSyncWithRetry env runId).isRetryExhausted = true ↔
      (runSync env (runId ++ "-retry")).success = false) ∧
    ((runSync env (runId ++ "-retry")).success = true →
      ∀ (now : Nat) (st : SchedulerState),
        (schedulerTick now st (Except.ok (runSyncWithRetry env runId))).2.2 = false) := by
  by_cases hretry : (runSync env (runId ++ "-retry")).success
  · have hres : runSyncWithRetry env runId =
        { runSync env (runId ++ "-retry") with
            wasRetry := true
            originalError := (runSync env runId).error } := by
      unfold runSyncWithRetry
      simp [hfail, hretry]
    refine ⟨?_, ?_, ?_, ?_, ?_⟩
    · unfold runSyncWithRetryTrace
      simp [hfail, hretry, hres]
    · rw [hres]
    · rw [hres]
    · rw [hres]
      simp [hretry, (runSync_no_retry_fields env (runId ++ "-retry")).1]
    · intro _ now st
      apply schedulerTick_no_alert_of_success
      rw [hres]
      simpa using hretry
  · have hres : runSyncWithRetry env runId =
        { runSync env (runId ++ "-retry") with
            wasRetry := true
            isRetryExhausted := true
            originalError := (runSync env runId).error } := by
      unfold runSyncWithRetry
      simp [hfail, hretry]
    refine ⟨?_, ?_, ?_, ?_, ?_⟩
    · unfold runSyncWithRetryTrace
      simp [hfail, hretry, hres]
    · rw [hres]
    · rw [hres]
    · rw [hres]
      simpa using hretry
    · intro hcontra
      exact absurd hcontra hretry

/-- C1 witness: a concrete environment whose upload fails on the
primary id "r1" and succeeds on the retry. -/
theorem retry_once_contract_witness :
    (runSync envRetrySucceeds "r1").success = false ∧
    (runSyncWithRetryTrace envRetrySucceeds "r1" =
      (runSyncWithRetry envRetrySucceeds "r1",
        [(0, "r1"), (RETRY_DELAY_MS, "r1" ++ "-retry")]) ∧
    (runSyncWithRetry envRetrySucceeds "r1").wasRetry = true ∧
    (runSyncWithRetry envRetrySucceeds "r1").originalError =
      (runSync envRetrySucceeds "r1").error ∧
    ((runSyncWithRetry envRetrySucceeds "r1").isRetryExhausted = true ↔
      (runSync envRetrySucceeds ("r1" ++ "-retry")).success = false) ∧
    ((runSync envRetrySucceeds ("r1" ++ "-retry")).success = true →
      ∀ (now : Nat) (st : SchedulerState),
        (schedulerTick now st
          (Except.ok (runSyncWithRetry envRetrySucceeds "r1"))).2.2 = false)) :=
  ⟨by decide, retry_once_contract envRetrySucceeds "r1" (by decide)⟩

/-- C4 counterexample: with the exporter's dashboard debug screenshot
throwing a plain (uncategorized) error — every other collaborator
behaving normally — `runSync` returns a failed result carrying no
error category, contradicting the claim that no failed run is ever
returned without a category. -/
theorem runSync_uncategorized_failure_cex :
    (runSync envUncategorized "a1b2c3d4").success = false ∧
    (runSync envUncategorized "a1b2c3d4").errorCategory = none ∧
    runSyncBody envUncategorized "a1b2c3d4" =
      Except.error ⟨"ENOSPC: no space left on device, write", none⟩ := by
  decide

/-- C4 amended: every `SyncResult` produced by `runSync` satisfies
exactly one of: `success = true` with no error category, or
`success = false` carrying the thrown error's message and category —
at most one category from the closed set, which is absent exactly when
the escaping exception is uncategorized. -/
theorem runSync_category_partition (env : SyncEnv) (runId : String) :
    ((runSync env runId).success = true ∧ (runSync env runId).errorCategory = none) ∨
    ((runSync env runId).success = false ∧ ∃ e : SyncError,
      runSyncBody env runId = Except.error e ∧
      (runSync env runId).errorCategory = e.category ∧
      (runSync env runId).error = some e.message) := by
  rcases h : runSyncBody env runId with e | p
  · right
    refine ⟨?_, e, rfl, ?_, ?_⟩ <;> simp [runSync, h, failureResult]
  · obtain ⟨er, up⟩ := p
    left
    constructor <;> simp [runSync, h, successResult]

/-- C8: every failed run whose result carries an error category records
the phase determined by that category: `login`, `navigation` and
`export` yield phase `export`; `auth` and `upload` yield phase
`upload`. -/
theorem failure_phase_mapping (env : SyncEnv) (runId : String) (c : ErrCategory)
    (h : (runSync env runId).errorCategory = some c) :
    (runSync env runId).success = false ∧
    ((c = ErrCategory.login ∨ c = ErrCategory.navigation ∨ c = ErrCategory.exportC) →
      (runSync env runId).phase = Phase.exportP) ∧
    ((c = ErrCategory.auth ∨ c = ErrCategory.upload) →
      (runSync env runId).phase = Phase.upload) := by
  rcases hb : runSyncBody env runId with e | p
  · have hc : e.category = some c := by
      simpa [runSync, hb, failureResult] using h
    refine ⟨by simp [runSync, hb, failureResult], ?_, ?_⟩
    · rintro (rfl | rfl | rfl) <;> simp [runSync, hb, failureResult, hc, categoryPhase]
    · rintro (rfl | rfl) <;> simp [runSync, hb, failureResult, hc, categoryPhase]
  · obtain ⟨er, up⟩ := p
    exact absurd h (by simp [runSync, hb, successResult])

/-- C8 witness: a login-category failure records phase `export`. -/
theorem failure_phase_mapping_witness :
    (runSync envLoginFails "w1").errorCategory = some ErrCategory.login ∧
    ((runSync envLoginFails "w1").success = false ∧
    ((ErrCategory.login = ErrCategory.login ∨ ErrCategory.login = ErrCategory.navigation ∨
        ErrCategory.login = ErrCategory.exportC) →
      (runSync envLoginFails "w1").phase = Phase.exportP) ∧
    ((ErrCategory.login = ErrCategory.auth ∨ ErrCategory.login = ErrCategory.upload) →
      (runSync envLoginFails "w1").phase = Phase.upload)) :=
  ⟨by decide, failure_phase_mapping envLoginFails "w1" ErrCategory.login (by decide)⟩

/-! ## Download capture theorems -/

theorem waitForFileLoop_ok_stable (fs : FsModel) (directory : String) (timeout startTime : Nat) :
    ∀ (fuel now : Nat) (f : String) (t : Nat),
      waitForFileLoop fs directory timeout startTime now fuel = Except.ok (f, t) →
      isXlsxCandidate f = true ∧ 200 ≤ t ∧ 0 < fs.size (t - 200) f ∧
        fs.size t f = fs.size (t - 200) f := by
  intro fuel
  induction fuel with
  | zero =>
    intro now f t h
    simp [waitForFileLoop] at h
  | succ n ih =>
    intro now f t h
    simp only [waitForFileLoop] at h
    by_cases hg : now - startTime < timeout
    · rw [if_pos hg] at h
      rcases hfil : (fs.files now).filter isXlsxCandidate with _ | ⟨f', rest⟩
      · simp only [hfil] at h
        exact ih _ _ _ h
      · simp only [hfil] at h
        by_cases hs1 : 0 < fs.size now f'
        · rw [if_pos hs1] at h
          by_cases hs2 : fs.size (now + 200) f' = fs.size now f'
          · rw [if_pos hs2] at h
            have hf : f' = f ∧ now + 200 = t := by
              cases h
              exact ⟨rfl, rfl⟩
            obtain ⟨rfl, rfl⟩ := hf
            have hmem : f' ∈ (fs.files now).filter isXlsxCandidate := by
              rw [hfil]
              exact List.mem_cons_self f' rest
            refine ⟨(List.mem_filter.mp hmem).2, by omega, ?_, ?_⟩
            · simpa using hs1
            · simpa using hs2
          · rw [if_neg hs2] at h
            exact ih _ _ _ h
        · rw [if_neg hs1] at h
          exact ih _ _ _ h
    · rw [if_neg hg] at h
      cases h

/-- C5: the download capture accepts a file only when two size readings
taken 200ms apart agree (and the first is positive) and the artifact's
leading two bytes are the ZIP/XLSX signature `0x50 0x4B`; at a poll
where the two readings differ the loop does not accept; and a file the
poll loop accepted whose leading bytes mismatch the signature is turned
into a capture failure, not returned as an artifact. -/
theorem download_capture_stability :
    (∀ (fs : FsModel) (content : String → List Nat) (directory : String)
        (timeout startTime : Nat) (a : ExportResult),
      waitForDownload fs content directory timeout startTime = Except.ok a →
      (∃ t : Nat, 200 ≤ t ∧ 0 < fs.size (t - 200) a.filename ∧
        fs.size t a.filename = fs.size (t - 200) a.filename ∧
        isXlsxCandidate a.filename = true) ∧
      a.buffer = content a.filename ∧
      a.buffer[0]? = some 0x50 ∧ a.buffer[1]? = some 0x4B) ∧
    (∀ (fs : FsModel) (content : String → List Nat) (directory : String)
        (timeout startTime : Nat) (f : String) (t : Nat),
      waitForFile fs directory timeout startTime = Except.ok (f, t) →
      ((content f)[0]? ≠ some 0x50 ∨ (content f)[1]? ≠ some 0x4B) →
      waitForDownload fs content directory timeout startTime =
        Except.error ⟨xlsxSignatureError, some ErrCategory.exportC⟩) := by
  constructor
  · intro fs content directory timeout startTime a h
    rcases hwf : waitForFile fs directory timeout startTime with msg | ⟨f, t⟩ <;>
      simp only [waitForDownload, hwf] at h
    · exact Except.noConfusion h
    · by_cases hsig : (content f)[0]? ≠ some 0x50 ∨ (content f)[1]? ≠ some 0x4B
      · rw [if_pos hsig] at h
        exact Except.noConfusion h
      · rw [if_neg hsig] at h
        have ha : a = ⟨content f, f, (content f).length⟩ := by
          cases h
          rfl
        subst ha
        push_neg at hsig
        rw [waitForFile] at hwf
        have hst := waitForFileLoop_ok_stable fs directory timeout startTime
          (timeout + 1) startTime f t hwf
        exact ⟨⟨t, hst.2.1, hst.2.2.1, hst.2.2.2, hst.1⟩, rfl, hsig.1, hsig.2⟩
  · intro fs content directory timeout startTime f t hwf hsig
    simp only [waitForDownload, hwf]
    rw [if_pos hsig]

/-- C5 witness: a stable, correctly signed file is accepted; with the
same stable polling but a wrong signature the capture fails with the
validation error. -/
theorem download_capture_stability_witness :
    waitForDownload fsStable contentPK "/tmp/d" 1000 0 = Except.ok artifactOk ∧
    ((∃ t : Nat, 200 ≤ t ∧ 0 < fsStable.size (t - 200) artifactOk.filename ∧
        fsStable.size t artifactOk.filename = fsStable.size (t - 200) artifactOk.filename ∧
        isXlsxCandidate artifactOk.filename = true) ∧
      artifactOk.buffer = contentPK artifactOk.filename ∧
      artifactOk.buffer[0]? = some 0x50 ∧ artifactOk.buffer[1]? = some 0x4B) ∧
    waitForFile fsStable "/tmp/d" 1000 0 = Except.ok ("carb-vehicles.xlsx", 200) ∧
    waitForDownload fsStable contentBad "/tmp/d" 1000 0 =
      Except.error ⟨xlsxSignatureError, some ErrCategory.exportC⟩ :=
  ⟨by decide,
    download_capture_stability.1 fsStable contentPK "/tmp/d" 1000 0 artifactOk (by decide),
    by decide,
    download_capture_stability.2 fsStable contentBad "/tmp/d" 1000 0
      "carb-vehicles.xlsx" 200 (by decide) (by decide)⟩

theorem waitForFileLoop_no_candidate (fs : FsModel) (directory : String)
    (timeout startTime : Nat)
    (h : ∀ (t : Nat) (f : String), f ∈ fs.files t → isXlsxCandidate f = false) :
    ∀ fuel now : Nat,
      waitForFileLoop fs directory timeout startTime now fuel =
        Except.error (timeoutMessage directory timeout) := by
  intro fuel
  induction fuel with
  | zero => intro now; rfl
  | succ n ih =>
    intro now
    have hfil : (fs.files now).filter isXlsxCandidate = [] :=
      List.filter_eq_nil_iff.mpr (fun f hf => by simp [h now f hf])
    simp only [waitForFileLoop, hfil]
    split
    · exact ih _
    · rfl

/-- C6: if throughout the whole window the download directory only ever
contains non-candidate names (partial-download markers or names without
the `.xlsx` extension), the capture fails with category `export` and
the timeout message — which is never the signature-validation
message. -/
theorem download_timeout_on_partial_only (fs : FsModel) (content : String → List Nat)
    (directory : String) (timeout startTime : Nat)
    (h : ∀ (t : Nat) (f : String), f ∈ fs.files t → isXlsxCandidate f = false) :
    waitForDownload fs content directory timeout startTime =
      Except.error
        ⟨"Download failed: " ++ timeoutMessage directory timeout, some ErrCategory.exportC⟩ ∧
    (∀ m : String, "Download failed: " ++ m ≠ xlsxSignatureError) := by
  constructor
  · have hwf : waitForFile fs directory timeout startTime =
        Except.error (timeoutMessage directory timeout) :=
      waitForFileLoop_no_candidate fs directory timeout startTime h (timeout + 1) startTime
    simp only [waitForDownload, hwf]
  · intro m heq
    have hd : ("Download failed: " ++ m).data = xlsxSignatureError.data := by
      rw [heq]
    rw [String.data_append] at hd
    have hlen : 8 < ("Download failed: ".data).length := by decide
    have h8 : ("Download failed: ".data ++ m.data)[8]? = xlsxSignatureError.data[8]? :=
      congrArg (fun l => l[8]?) hd
    rw [List.getElem?_append_left hlen] at h8
    exact absurd h8 (by decide)

/-- C6 witness: a directory holding only a `.partial`-suffixed file
for the default 60s window. -/
theorem download_timeout_on_partial_only_witness :
    (∀ (t : Nat) (f : String), f ∈ fsPartialOnly.files t → isXlsxCandidate f = false) ∧
    (waitForDownload fsPartialOnly contentEmpty "/tmp/vtx-sync-w1" 60000 0 =
      Except.error
        ⟨"Download failed: " ++ timeoutMessage "/tmp/vtx-sync-w1" 60000,
          some ErrCategory.exportC⟩ ∧
    (∀ m : String, "Download failed: " ++ m ≠ xlsxSignatureError)) :=
  ⟨fun t f hf => by
      simp only [fsPartialOnly, List.mem_singleton] at hf
      subst hf
      decide,
    download_timeout_on_partial_only fsPartialOnly contentEmpty "/tmp/vtx-sync-w1" 60000 0
      (fun t f hf => by
        simp only [fsPartialOnly, List.mem_singleton] at hf
        subst hf
        decide)⟩

/-! ## Next-run-time theorems -/

/-- C7: the code contradicts the cron calendar it documents.  At
Pacific wall time 21:45:00.000 `getNextRunTime` returns 05:00 the next
day, yet 22:00 the same day is a fire time of the cron expression
`'0,30 5-22 * * *'` and lies strictly between the current time and the
returned time, so the returned time is not the earliest next fire
time. -/
theorem getNextRunTime_skips_hour22 :
    getNextRunTime ⟨0, 21, 45, 0⟩ = ⟨1, 5, 0, 0⟩ ∧
    isCronFireTime ⟨0, 22, 0, 0⟩ ∧
    WallTime.toMs ⟨0, 21, 45, 0⟩ < WallTime.toMs ⟨0, 22, 0, 0⟩ ∧
    WallTime.toMs ⟨0, 22, 0, 0⟩ < WallTime.toMs (getNextRunTime ⟨0, 21, 45, 0⟩) := by
  decide

/-! ## Scheduler overlap theorems -/

theorem tickBegin_started (now : Nat) (st : SchedulerState) (st' : SchedulerState)
    (h : tickBegin now st = (st', TickAction.started)) :
    st.isRunning = false ∧ st'.isRunning = true := by
  unfold tickBegin at h
  by_cases hr : st.isRunning
  · rw [if_pos hr] at h
    exact absurd (congrArg Prod.snd h) (by simp)
  · rw [if_neg hr] at h
    rcases hcb : isCircuitOpen now st.cb with ⟨isOpenNow, cb'⟩
    cases isOpenNow
    · simp only [hcb, Bool.false_eq_true, if_false] at h
      cases h
      exact ⟨by simpa using hr, rfl⟩
    · simp only [hcb, if_true] at h
      exact absurd (congrArg Prod.snd h) (by simp)

theorem tickBegin_not_started (now : Nat) (st : SchedulerState) (st' : SchedulerState)
    (act : TickAction) (h : tickBegin now st = (st', act)) (hact : act ≠ TickAction.started) :
    st'.isRunning = st.isRunning := by
  unfold tickBegin at h
  by_cases hr : st.isRunning
  · rw [if_pos hr] at h
    cases h
    rfl
  · rw [if_neg hr] at h
    rcases hcb : isCircuitOpen now st.cb with ⟨isOpenNow, cb'⟩
    cases isOpenNow
    · simp only [hcb, Bool.false_eq_true, if_false] at h
      cases h
      exact absurd rfl hact
    · simp only [hcb, if_true] at h
      cases h
      rfl

theorem tickFinish_clears (now : Nat) (st : SchedulerState)
    (r : Except SyncError SyncResult) : (tickFinish now st r).1.isRunning = false := by
  unfold tickFinish
  rcases r with e | r
  · rfl
  · by_cases hs : r.success <;> simp [hs]

theorem stepEvent_inv (p : SchedulerState × Nat) (ev : SchedEvent)
    (h : p.2 = if p.1.isRunning then 1 else 0) :
    (stepEvent p ev).2 = if (stepEvent p ev).1.isRunning then 1 else 0 := by
  obtain ⟨st, k⟩ := p
  cases ev with
  | trigger now =>
    rcases hb : tickBegin now st with ⟨st', act⟩
    cases act with
    | started =>
      simp only [stepEvent, hb]
      obtain ⟨hold, hnew⟩ := tickBegin_started now st st' hb
      rw [hnew]
      simp only [if_pos rfl]
      rw [hold] at h
      simpa using h
    | skippedBusy =>
      simp only [stepEvent, hb]
      rw [tickBegin_not_started now st st' _ hb (by intro hc; cases hc)]
      exact h
    | skippedCircuitOpen =>
      simp only [stepEvent, hb]
      rw [tickBegin_not_started now st st' _ hb (by intro hc; cases hc)]
      exact h
  | finish now r =>
    cases k with
    | zero =>
      simpa using h
    | succ k' =>
      simp only [stepEvent, tickFinish_clears now st r]
      simp only [if_neg Bool.false_ne_true]
      by_cases hr : st.isRunning
      · rw [if_pos hr] at h
        omega
      · rw [if_neg hr] at h
        omega

theorem foldl_stepEvent_inv (evs : List SchedEvent) :
    ∀ p : SchedulerState × Nat, p.2 = (if p.1.isRunning then 1 else 0) →
      (evs.foldl stepEvent p).2 =
        if (evs.foldl stepEvent p).1.isRunning then 1 else 0 := by
  induction evs with
  | nil => intro p h; exact h
  | cons e es ih => intro p h; exact ih _ (stepEvent_inv p e h)

/-- C9: a trigger tick arriving while the in-flight guard is set starts
no attempt and leaves the whole scheduler state (guard and circuit
breaker) unchanged; a tick starting from a cleared guard always ends
with the guard cleared again, whatever the orchestrator's outcome
(including an escaped exception); and along any sequence of trigger and
finish events from process start, the number of begun-but-unfinished
attempts equals the guard bit, hence never exceeds one. -/
theorem scheduler_overlap_guard :
    (∀ (now : Nat) (st : SchedulerState) (orc : Except SyncError SyncResult),
      st.isRunning = true →
      schedulerTick now st orc = (st, TickAction.skippedBusy, false)) ∧
    (∀ (now : Nat) (st : SchedulerState) (orc : Except SyncError SyncResult),
      st.isRunning = false → (schedulerTick now st orc).1.isRunning = false) ∧
    (∀ evs : List SchedEvent,
      (runEvents evs).2 = (if (runEvents evs).1.isRunning then 1 else 0) ∧
      (runEvents evs).2 ≤ 1) := by
  refine ⟨?_, ?_, ?_⟩
  · intro now st orc h
    simp [schedulerTick, tickBegin, h]
  · intro now st orc h
    rcases hb : tickBegin now st with ⟨st', act⟩
    cases act with
    | started =>
      simp only [schedulerTick, hb]
      exact tickFinish_clears now st' orc
    | skippedBusy =>
      simp only [schedulerTick, hb]
      rw [tickBegin_not_started now st st' _ hb (by intro hc; cases hc)]
      exact h
    | skippedCircuitOpen =>
      simp only [schedulerTick, hb]
      rw [tickBegin_not_started now st st' _ hb (by intro hc; cases hc)]
      exact h
  · intro evs
    have hinv : (runEvents evs).2 = (if (runEvents evs).1.isRunning then 1 else 0) :=
      foldl_stepEvent_inv evs (⟨false, CBState.init⟩, 0) (by simp)
    refine ⟨hinv, ?_⟩
    rw [hinv]
    by_cases hr : (runEvents evs).1.isRunning <;> simp [hr]

/-- C9 witness: a busy tick is skipped unchanged; an idle tick ends
with the guard cleared; a trigger followed by its finish keeps the
in-flight count at the guard bit and at most one. -/
theorem scheduler_overlap_guard_witness :
    (SchedulerState.mk true CBState.init).isRunning = true ∧
    schedulerTick 0 ⟨true, CBState.init⟩
        (Except.ok (successResult "w9" artifactOk uploadOkStats)) =
      (⟨true, CBState.init⟩, TickAction.skippedBusy, false) ∧
    (SchedulerState.mk false CBState.init).isRunning = false ∧
    (schedulerTick 0 ⟨false, CBState.init⟩
        (Except.ok (successResult "w9" artifactOk uploadOkStats))).1.isRunning = false ∧
    (runEvents [SchedEvent.trigger 0,
        SchedEvent.finish 1 (Except.ok (successResult "w9" artifactOk uploadOkStats))]).2 =
      (if (runEvents [SchedEvent.trigger 0,
        SchedEvent.finish 1 (Except.ok (successResult "w9" artifactOk uploadOkStats))]).1.isRunning
      then 1 else 0) ∧
    (runEvents [SchedEvent.trigger 0,
        SchedEvent.finish 1 (Except.ok (successResult "w9" artifactOk uploadOkStats))]).2 ≤ 1 :=
  ⟨rfl,
    scheduler_overlap_guard.1 0 ⟨true, CBState.init⟩
      (Except.ok (successResult "w9" artifactOk uploadOkStats)) rfl,
    rfl,
    scheduler_overlap_guard.2.1 0 ⟨false, CBState.init⟩
      (Except.ok (successResult "w9" artifactOk uploadOkStats)) rfl,
    (scheduler_overlap_guard.2.2 [SchedEvent.trigger 0,
      SchedEvent.finish 1 (Except.ok (successResult "w9" artifactOk uploadOkStats))]).1,
    (scheduler_overlap_guard.2.2 [SchedEvent.trigger 0,
      SchedEvent.finish 1 (Except.ok (successResult "w9" artifactOk uploadOkStats))]).2⟩

end VtxSync
